import Mathlib

/-!
Verification of the layout-fitting and booklet-imposition core of the
`elca-bulletin-maker` repository, as a shallow embedding in Lean 4.

The embedded code comes from:
  * `src/bulletin_maker/renderer/pdf_engine.py`
    (`impose_booklet`, `count_pages`, `render_with_shrink`,
     `AUTO_SHRINK_SCALES`), and
  * `src/bulletin_maker/renderer/html_renderer.py`
    (`_inject_css`, `_booklet_blanks`, `_best_direction`,
     `_auto_adjust_bulletin`, `BULLETIN_TIGHTEN_PROFILES`,
     `BULLETIN_LOOSEN_PROFILES`).

The external Playwright render call and the external pypdf reader are
modelled as oracles: rendering is deterministic for fixed inputs (spec
section 2), so the page count of a render is a function of the markup
string and the scale factor.  Python floats that are only stored and
compared (the scale factors) are embedded as exact rationals; no float
arithmetic occurs anywhere in the embedded code.
-/

namespace BulletinMaker

/- ────────────────────────────────────────────────────────────────────
   pdf_engine.py : booklet imposition
   ──────────────────────────────────────────────────────────────────── -/

/-- Padding: `padded = n + (4 - n % 4) % 4` — pdf_engine.py line 181. -/
def paddedCount (n : Nat) : Nat := n + (4 - n % 4) % 4

/-- One half-page slot of an output sheet side: `some idx` when reading-order
page `idx` is merged (guard `idx < n` in `impose_booklet`), `none` when the
slot stays blank. -/
def slot (n idx : Nat) : Option Nat := if idx < n then some idx else none

/-- A physical output page of the imposed booklet: the left slot is merged at
x-offset 0, the right slot at x-offset `half_w`. -/
structure Side where
  left : Option Nat
  right : Option Nat
deriving DecidableEq

/-- Front side built for `sheet_idx` — pdf_engine.py lines 192-207:
left = `padded - 2*sheet_idx - 1`, right = `2*sheet_idx`. -/
def frontSide (n padded sheetIdx : Nat) : Side :=
  ⟨slot n (padded - 2 * sheetIdx - 1), slot n (2 * sheetIdx)⟩

/-- Back side built for `sheet_idx` — pdf_engine.py lines 209-224:
left = `2*sheet_idx + 1`, right = `padded - 2*sheet_idx - 2`. -/
def backSide (n padded sheetIdx : Nat) : Side :=
  ⟨slot n (2 * sheetIdx + 1), slot n (padded - 2 * sheetIdx - 2)⟩

/-- The body of the `for i in range(0, num_sheets, 2)` loop of
`impose_booklet`: for each loop index `i` the writer receives the front page
and then the back page for `sheet_idx = i // 2`. -/
def imposeEmit (n padded : Nat) : List Nat → List Side
  | [] => []
  | i :: rest =>
      frontSide n padded (i / 2) :: backSide n padded (i / 2) ::
        imposeEmit n padded rest

/-- The sequence of output pages `impose_booklet` writes for an `n`-page
input.  `range(0, num_sheets, 2)` is `List.range' 0 ((numSheets + 1) / 2) 2`
(same elements `0, 2, 4, ...`, same length `ceil(num_sheets / 2)`). -/
def imposePages (n : Nat) : List Side :=
  let padded := paddedCount n
  let numSheets := padded / 2
  imposeEmit n padded (List.range' 0 ((numSheets + 1) / 2) 2)

/- ────────────────────────────────────────────────────────────────────
   pdf_engine.py : count_pages
   ──────────────────────────────────────────────────────────────────── -/

/-- Exception kinds relevant to `count_pages`.  Python's exception universe
is open; `otherError` stands for any exception type outside the caught
tuple `(ImportError, OSError, ValueError)` — for instance pypdf's
`PdfReadError` (a direct `Exception` subclass) raised for a corrupt file. -/
inductive PyExc where
  | importError
  | osError
  | valueError
  | otherError
deriving DecidableEq

/-- Outcome of the external `PdfReader(...)` call inside the `try` block:
either a successful read with a page count, or a raised exception. -/
inductive ReadOutcome where
  | ok (pages : Nat)
  | raise (e : PyExc)
deriving DecidableEq

/-- Embedding of `count_pages` — pdf_engine.py lines 146-155.  The `try` body returns the
page count; `except ImportError` and `except (OSError, ValueError)` return
`None`; any other exception propagates to the caller (Python semantics of an
uncaught exception), modelled as `Except.error`. -/
def count_pages (outcome : ReadOutcome) : Except PyExc (Option Nat) :=
  match outcome with
  | .ok n => .ok (some n)
  | .raise .importError => .ok none
  | .raise .osError => .ok none
  | .raise .valueError => .ok none
  | .raise .otherError => .error .otherError

/- ────────────────────────────────────────────────────────────────────
   pdf_engine.py : render_with_shrink
   ──────────────────────────────────────────────────────────────────── -/

/-- Ladder `AUTO_SHRINK_SCALES = (0.95, 0.90, 0.85, 0.80)` — pdf_engine.py
line 21. -/
def AUTO_SHRINK_SCALES : List Rat := [95/100, 90/100, 85/100, 80/100]

/-- The loop guard `pages is not None and pages <= max_pages` for one scale,
where `measure s` is the page count of the render at scale `s`. -/
def shrinkHit (measure : Rat → Option Nat) (maxPages : Nat) (s : Rat) : Bool :=
  match measure s with
  | some m => decide (m ≤ maxPages)
  | none => false

/-- The `for scale in AUTO_SHRINK_SCALES` loop of `render_with_shrink`
(lines 264-277).  Returns the scales rendered by the loop, in order, and the
scale of the render left on disk when the function returns (`last` is the
scale of the render currently on disk when the loop is entered). -/
def shrinkGo (measure : Rat → Option Nat) (maxPages : Nat) :
    Rat → List Rat → List Rat × Rat
  | last, [] => ([], last)
  | _, s :: rest =>
      if shrinkHit measure maxPages s then ([s], s)
      else
        let t := shrinkGo measure maxPages s rest
        (s :: t.1, t.2)

/-- Embedding of `render_with_shrink` — pdf_engine.py lines 236-277, as the pair
(scales rendered in order, scale of the final file on disk).  The first
render always happens at the default scale 1.0; the early return fires when
the count is `None` or `≤ max_pages`. -/
def renderWithShrink (measure : Rat → Option Nat) (maxPages : Nat) :
    List Rat × Rat :=
  match measure 1 with
  | none => ([1], 1)
  | some pages =>
      if pages ≤ maxPages then ([1], 1)
      else
        let t := shrinkGo measure maxPages 1 AUTO_SHRINK_SCALES
        (1 :: t.1, t.2)

/- ────────────────────────────────────────────────────────────────────
   html_renderer.py : _inject_css (string splicing)
   ──────────────────────────────────────────────────────────────────── -/

/-- Python `str.replace(needle, repl)` on character lists: scan left to
right, replace each non-overlapping occurrence of `needle` by `repl`, and
continue scanning after the replaced segment (the replacement itself is not
rescanned). -/
def replaceFrom (needle repl : List Char) : List Char → List Char
  | [] => []
  | c :: rest =>
      if !needle.isEmpty && needle.isPrefixOf (c :: rest) then
        repl ++ replaceFrom needle repl (rest.drop (needle.length - 1))
      else
        c :: replaceFrom needle repl rest
termination_by l => l.length
decreasing_by
  · simp only [List.length_cons, List.length_drop]
    omega
  · simp only [List.length_cons]
    omega

/-- The same left-to-right scan, returning the segments of the list that lie
between consecutive occurrences of `needle` (analysis helper for stating
what `str.replace` does). -/
def splitOnSub (needle : List Char) : List Char → List (List Char)
  | [] => [[]]
  | c :: rest =>
      if !needle.isEmpty && needle.isPrefixOf (c :: rest) then
        [] :: splitOnSub needle (rest.drop (needle.length - 1))
      else
        match splitOnSub needle rest with
        | [] => [[c]]
        | p :: ps => (c :: p) :: ps
termination_by l => l.length
decreasing_by
  · simp only [List.length_cons, List.length_drop]
    omega
  · simp only [List.length_cons]
    omega

/-- Whether `needle` occurs as a contiguous substring (Python `needle in s`,
for nonempty `needle`). -/
def containsSub (needle : List Char) : List Char → Bool
  | [] => needle.isEmpty
  | c :: rest => needle.isPrefixOf (c :: rest) || containsSub needle rest

/-- Join segments, inserting `sep` between consecutive segments. -/
def joinWith (sep : List Char) : List (List Char) → List Char
  | [] => []
  | [p] => p
  | p :: q :: ps => p ++ sep ++ joinWith sep (q :: ps)

/-- The style-block terminator `_inject_css` splices before. -/
def styleMarker : String := "</style>"

/-- Embedding of `_inject_css` — html_renderer.py lines 436-438:
`html.replace("</style>", "\n/* auto-adjust */\n" + extra_css + "\n</style>")`. -/
def injectCss (html extraCss : String) : String :=
  ⟨replaceFrom styleMarker.data
    ("\n/* auto-adjust */\n".data ++ extraCss.data ++ "\n</style>".data)
    html.data⟩

/- ────────────────────────────────────────────────────────────────────
   html_renderer.py : _booklet_blanks and _best_direction
   ──────────────────────────────────────────────────────────────────── -/

/-- Embedding of `_booklet_blanks` — html_renderer.py lines 441-443:
`(4 - n % 4) % 4`. -/
def bookletBlanks (n : Nat) : Nat := (4 - n % 4) % 4

/-- Embedding of `_best_direction` — html_renderer.py lines 446-459. -/
def bestDirection (pages : Nat) : String :=
  let blanks := bookletBlanks pages
  if blanks = 0 then "tighten"
  else
    let pagesToRemove := pages % 4
    let pagesToAdd := blanks
    if pagesToAdd < pagesToRemove then "loosen" else "tighten"

/- ────────────────────────────────────────────────────────────────────
   html_renderer.py : the density-profile ladders
   ──────────────────────────────────────────────────────────────────── -/

/-- Embedding of `AdjustProfile` — html_renderer.py lines 272-277. -/
structure AdjustProfile where
  name : String
  css : String
  scale : Rat := 1
deriving DecidableEq, Inhabited

/-- Embedding of `BULLETIN_TIGHTEN_PROFILES` — html_renderer.py lines 284-352, with the
CSS texts transcribed verbatim (braces written as escapes). -/
def BULLETIN_TIGHTEN_PROFILES : List AdjustProfile := [
  { name := "T1", css :=
      ".spacer \x7b height: 4pt; \x7d .spacer-sm \x7b height: 2pt; \x7d .section-heading \x7b margin-top: 5pt; \x7d .ep-break \x7b height: 3pt; \x7d" },
  { name := "T2", css :=
      ".spacer \x7b height: 2pt; \x7d .spacer-sm \x7b height: 1pt; \x7d .section-heading \x7b margin-top: 3pt; margin-bottom: 1pt; \x7d .flow-group \x7b break-inside: auto; \x7d .ep-break \x7b height: 2pt; \x7d" },
  { name := "T3", css :=
      ".spacer \x7b height: 0pt; \x7d .spacer-sm \x7b height: 0pt; \x7d .section-heading \x7b margin-top: 2pt; margin-bottom: 0pt; \x7d .flow-group \x7b break-inside: auto; \x7d .ep-break \x7b height: 0pt; \x7d .cover \x7b min-height: 7in; \x7d" },
  { name := "T4", css :=
      ".spacer \x7b height: 0pt; \x7d .spacer-sm \x7b height: 0pt; \x7d .section-heading \x7b margin-top: 2pt; margin-bottom: 0pt; \x7d .flow-group \x7b break-inside: auto; \x7d .ep-break \x7b height: 0pt; \x7d .cover \x7b min-height: 7in; \x7d body \x7b font-size: 10.5pt; line-height: 1.3; \x7d .reading-intro \x7b font-size: 8.5pt; \x7d .reading-text \x7b line-height: 1.3; \x7d .psalm-verse \x7b line-height: 1.25; \x7d" },
  { name := "T5", css :=
      ".spacer \x7b height: 0pt; \x7d .spacer-sm \x7b height: 0pt; \x7d .section-heading \x7b margin-top: 1pt; margin-bottom: 0pt; \x7d .flow-group \x7b break-inside: auto; \x7d .ep-break \x7b height: 0pt; \x7d .cover \x7b min-height: 6.5in; \x7d body \x7b font-size: 10.5pt; line-height: 1.25; orphans: 2; widows: 2; \x7d .reading-intro \x7b font-size: 8pt; \x7d .reading-text \x7b line-height: 1.25; \x7d .psalm-verse \x7b line-height: 1.2; \x7d .two-col \x7b column-gap: 0.2in; \x7d",
    scale := 97/100 },
  { name := "T6", css :=
      ".spacer \x7b height: 0pt; \x7d .spacer-sm \x7b height: 0pt; \x7d .section-heading \x7b margin-top: 1pt; margin-bottom: 0pt; \x7d .flow-group \x7b break-inside: auto; \x7d .ep-break \x7b height: 0pt; \x7d .cover \x7b min-height: 6in; \x7d body \x7b font-size: 10pt; line-height: 1.2; orphans: 2; widows: 2; \x7d .reading-intro \x7b font-size: 8pt; \x7d .reading-text \x7b line-height: 1.2; \x7d .psalm-verse \x7b line-height: 1.15; \x7d .two-col \x7b column-gap: 0.15in; \x7d .notation-image img \x7b max-height: 6.5in; \x7d .ep-text \x7b font-size: 9.5pt; \x7d",
    scale := 95/100 }]

/-- Embedding of `BULLETIN_LOOSEN_PROFILES` — html_renderer.py lines 355-413. -/
def BULLETIN_LOOSEN_PROFILES : List AdjustProfile := [
  { name := "L1", css :=
      ".spacer \x7b height: 12pt; \x7d .spacer-sm \x7b height: 6pt; \x7d .section-heading \x7b margin-top: 12pt; \x7d .ep-break \x7b height: 10pt; \x7d" },
  { name := "L2", css :=
      ".spacer \x7b height: 18pt; \x7d .spacer-sm \x7b height: 10pt; \x7d .section-heading \x7b margin-top: 16pt; \x7d .ep-break \x7b height: 14pt; \x7d" },
  { name := "L3", css :=
      ".spacer \x7b height: 24pt; \x7d .spacer-sm \x7b height: 14pt; \x7d .section-heading \x7b margin-top: 20pt; \x7d .ep-break \x7b height: 18pt; \x7d .cover \x7b min-height: 8in; \x7d" },
  { name := "L4", css :=
      ".spacer \x7b height: 24pt; \x7d .spacer-sm \x7b height: 14pt; \x7d .section-heading \x7b margin-top: 20pt; \x7d .ep-break \x7b height: 18pt; \x7d .cover \x7b min-height: 8in; \x7d body \x7b font-size: 11.5pt; line-height: 1.4; \x7d .reading-text \x7b line-height: 1.4; \x7d .psalm-verse \x7b line-height: 1.35; \x7d" },
  { name := "L5", css :=
      ".spacer \x7b height: 28pt; \x7d .spacer-sm \x7b height: 16pt; \x7d .section-heading \x7b margin-top: 22pt; \x7d .ep-break \x7b height: 20pt; \x7d .cover \x7b min-height: 8in; \x7d body \x7b font-size: 11.5pt; line-height: 1.45; orphans: 4; widows: 4; \x7d .reading-text \x7b line-height: 1.45; \x7d .psalm-verse \x7b line-height: 1.4; \x7d .two-col \x7b column-gap: 0.3in; \x7d",
    scale := 103/100 },
  { name := "L6", css :=
      ".spacer \x7b height: 32pt; \x7d .spacer-sm \x7b height: 18pt; \x7d .section-heading \x7b margin-top: 24pt; \x7d .ep-break \x7b height: 22pt; \x7d .cover \x7b min-height: 8.2in; \x7d body \x7b font-size: 12pt; line-height: 1.5; orphans: 4; widows: 4; \x7d .reading-text \x7b line-height: 1.5; \x7d .psalm-verse \x7b line-height: 1.45; \x7d .two-col \x7b column-gap: 0.35in; \x7d",
    scale := 105/100 }]

/- Analysis helpers for the cumulative-ladder invariant: the set of
(selector, property) pairs a profile's CSS text adjusts. -/

def isSpaceChar (c : Char) : Bool := c = ' ' || c = '\n' || c = '\t'

def trimChars (l : List Char) : List Char :=
  ((l.dropWhile isSpaceChar).reverse.dropWhile isSpaceChar).reverse

/-- Properties assigned by one rule body such as
`" height: 4pt; margin-top: 3pt; "`. -/
def declProps (body : List Char) : List (List Char) :=
  (body.splitOn ';').filterMap fun d =>
    match d.splitOn ':' with
    | p :: _ :: _ => some (trimChars p)
    | _ => none

/-- The (selector, property) pairs of one `sel \x7b decls` chunk. -/
def chunkAdjustments (chunk : List Char) : List (List Char × List Char) :=
  match chunk.splitOn '\x7b' with
  | sel :: body :: _ => (declProps body).map fun prop => (trimChars sel, prop)
  | _ => []

/-- All (selector, property) pairs adjusted by a profile's CSS text. -/
def cssAdjustments (css : String) : List (List Char × List Char) :=
  (css.data.splitOn '\x7d').flatMap chunkAdjustments

/-- Predicate `adjSubset a b` : every (selector, property) adjusted by `a` is also
adjusted by `b`. -/
def adjSubset (a b : String) : Bool :=
  (cssAdjustments a).all fun x => (cssAdjustments b).contains x

/-- Each tier's adjustments cover the previous tier's, along a ladder. -/
def consecCumulative : List AdjustProfile → Bool
  | [] => true
  | [_] => true
  | a :: b :: rest => adjSubset a.css b.css && consecCumulative (b :: rest)

/- ────────────────────────────────────────────────────────────────────
   html_renderer.py : _auto_adjust_bulletin
   ──────────────────────────────────────────────────────────────────── -/

/-- The mutable best-so-far locals of `_auto_adjust_bulletin`
(`best_html`, `best_scale`, `best_blanks`, `adjusted`). -/
structure FitState where
  bestHtml : String
  bestScale : Rat
  bestBlanks : Nat
  adjusted : Bool
deriving DecidableEq

/-- The `if blanks < best_blanks:` update block (lines 521-527 / 556-562). -/
def stepBest (cand : String) (scale : Rat) (blanks : Nat) (st : FitState) :
    FitState :=
  if blanks < st.bestBlanks then ⟨cand, scale, blanks, true⟩ else st

/-- The overshoot-detection block of the primary loop (lines 530-539).
The `elif` is only reached when the tighten guard is false; for a fixed
`direction` string the two guards are mutually exclusive anyway. -/
def overshootHit (direction : String) (baselinePages m : Nat) : Bool :=
  if direction = "tighten" ∧ m < baselinePages ∧ m % 4 ≠ 0 then
    decide (m < baselinePages - baselinePages % 4)
  else if direction = "loosen" ∧ baselinePages < m ∧ m % 4 ≠ 0 then
    decide (baselinePages + bookletBlanks baselinePages < m)
  else false

/-- One directional profile loop of `_auto_adjust_bulletin` (primary loop
lines 509-539 with `useOvershoot := true`; secondary loop lines 544-564 is
the same body without the overshoot block, `useOvershoot := false`).
`measure cand scale` is the page count of the render of markup `cand` at
scale `scale` (the render is deterministic, and `count_pages` of it either
yields a number or the `None` sentinel; Python's `if not n: continue` also
treats a zero count as no signal).  Returns the final state, the names of
the profiles attempted in order, and the renders performed in order. -/
def adjustLoop (measure : String → Rat → Option Nat) (html direction : String)
    (baselinePages : Nat) (useOvershoot : Bool) :
    List AdjustProfile → FitState →
      FitState × List String × List (String × Rat)
  | [], st => (st, [], [])
  | p :: rest, st =>
      let cand := injectCss html p.css
      match measure cand p.scale with
      | none =>
          let t := adjustLoop measure html direction baselinePages useOvershoot
            rest st
          (t.1, p.name :: t.2.1, (cand, p.scale) :: t.2.2)
      | some m =>
          if m = 0 then
            let t := adjustLoop measure html direction baselinePages
              useOvershoot rest st
            (t.1, p.name :: t.2.1, (cand, p.scale) :: t.2.2)
          else
            let st1 := stepBest cand p.scale (bookletBlanks m) st
            if st1.bestBlanks = 0 then (st1, [p.name], [(cand, p.scale)])
            else if useOvershoot && overshootHit direction baselinePages m then
              (st1, [p.name], [(cand, p.scale)])
            else
              let t := adjustLoop measure html direction baselinePages
                useOvershoot rest st1
              (t.1, p.name :: t.2.1, (cand, p.scale) :: t.2.2)

/-- Observable outcome of one `_auto_adjust_bulletin` run: every render
performed (markup, scale) in order — the last one is the file left on disk
at `seq_path` — the profile names attempted, and the final best-so-far
state (`none` when the early return at line 489 fired and the search
locals never existed). -/
structure AdjustOutcome where
  renders : List (String × Rat)
  attempts : List String
  search : Option FitState
deriving DecidableEq

/-- Embedding of `_auto_adjust_bulletin` — html_renderer.py lines 462-577.  The baseline
render happens at the default scale 1.0; `if not pages or pages % 4 == 0`
returns early; otherwise the primary direction (chosen once by
`_best_direction`) is searched with overshoot detection, then the secondary
direction if the best blank count is still positive, and a final render of
the best candidate happens only when `adjusted` was set. -/
def autoAdjustBulletin (measure : String → Rat → Option Nat) (html : String) :
    AdjustOutcome :=
  match measure html 1 with
  | none => ⟨[(html, 1)], [], none⟩
  | some pages =>
      if pages = 0 ∨ pages % 4 = 0 then ⟨[(html, 1)], [], none⟩
      else
        let st0 : FitState := ⟨html, 1, bookletBlanks pages, false⟩
        let direction := bestDirection pages
        let primary := if direction = "tighten" then BULLETIN_TIGHTEN_PROFILES
          else BULLETIN_LOOSEN_PROFILES
        let secondary := if direction = "tighten" then BULLETIN_LOOSEN_PROFILES
          else BULLETIN_TIGHTEN_PROFILES
        let r1 := adjustLoop measure html direction pages true primary st0
        let r2 := if r1.1.bestBlanks > 0 then
            adjustLoop measure html direction pages false secondary r1.1
          else (r1.1, [], [])
        let finalRenders := if r2.1.adjusted then
            [(r2.1.bestHtml, r2.1.bestScale)] else []
        ⟨(html, 1) :: (r1.2.2 ++ r2.2.2 ++ finalRenders),
         r1.2.1 ++ r2.2.1, some r2.1⟩

/- ────────────────────────────────────────────────────────────────────
   Concrete fixtures used by witnesses and evaluations
   ──────────────────────────────────────────────────────────────────── -/

/-- A concrete measurement oracle: 3 pages at scales above 0.85, 2 pages
from 0.85 down. -/
def shrinkMeasureExample : Rat → Option Nat :=
  fun s => if s ≤ 85/100 then some 2 else some 3

/-- Constant measurement oracle: every attempt yields 10 pages. -/
def overshootMeasure : String → Rat → Option Nat := fun _ _ => some 10

/-- A minimal markup fixture containing the style-block terminator. -/
def markedHtml : String := "<style></style>"

/-- Constant oracle: every render measures 13 pages (no profile ever
changes the count). -/
def staleMeasure : String → Rat → Option Nat := fun _ _ => some 13

/-- Oracle for which only the baseline markup is measurable. -/
def unmeasMeasure : String → Rat → Option Nat :=
  fun c _ => if c = markedHtml then some 13 else none

/- ────────────────────────────────────────────────────────────────────
   Supporting lemmas: imposition
   ──────────────────────────────────────────────────────────────────── -/

theorem imposeEmit_length (n padded : Nat) (l : List Nat) :
    (imposeEmit n padded l).length = 2 * l.length := by
  induction l with
  | nil => rfl
  | cons i rest ih =>
      simp only [imposeEmit, List.length_cons, ih]
      omega

theorem imposeEmit_front (n padded : Nat) (l : List Nat) (k : Nat) :
    (imposeEmit n padded l)[2 * k]? =
      (l[k]?).map fun i => frontSide n padded (i / 2) := by
  induction l generalizing k with
  | nil => simp [imposeEmit]
  | cons i rest ih =>
      cases k with
      | zero => simp [imposeEmit]
      | succ k =>
          have h2 : 2 * (k + 1) = 2 * k + 1 + 1 := by omega
          rw [h2]
          simpa [imposeEmit] using ih k

theorem imposeEmit_back (n padded : Nat) (l : List Nat) (k : Nat) :
    (imposeEmit n padded l)[2 * k + 1]? =
      (l[k]?).map fun i => backSide n padded (i / 2) := by
  induction l generalizing k with
  | nil => simp [imposeEmit]
  | cons i rest ih =>
      cases k with
      | zero => simp [imposeEmit]
      | succ k =>
          have h2 : 2 * (k + 1) + 1 = 2 * k + 1 + 1 + 1 := by omega
          rw [h2]
          simpa [imposeEmit] using ih k

theorem paddedCount_mod (n : Nat) : paddedCount n % 4 = 0 := by
  unfold paddedCount
  omega

/- ────────────────────────────────────────────────────────────────────
   C1
   ──────────────────────────────────────────────────────────────────── -/

/-- C1: `impose_booklet` pads an `N`-page input to
`padded = N + ((4 - N mod 4) mod 4)` pages, produces one front and one back
output page for each 0-indexed sheet `k < padded / 4`, and on sheet `k`
places reading-order page `padded - 2*k - 1` in the front left slot,
`2*k` in the front right slot, `2*k + 1` in the back left slot and
`padded - 2*k - 2` in the back right slot; a slot is blank (`none`, nothing
merged) exactly when its page index is `≥ N`. -/
theorem impose_booklet_layout (n k : Nat) (hk : k < paddedCount n / 4) :
    paddedCount n % 4 = 0 ∧
    (imposePages n).length = 2 * (paddedCount n / 4) ∧
    (imposePages n)[2 * k]? =
      some ⟨slot n (paddedCount n - 2 * k - 1), slot n (2 * k)⟩ ∧
    (imposePages n)[2 * k + 1]? =
      some ⟨slot n (2 * k + 1), slot n (paddedCount n - 2 * k - 2)⟩ ∧
    (∀ idx, n ≤ idx → slot n idx = none) ∧
    (∀ idx, idx < n → slot n idx = some idx) := by
  have hpad := paddedCount_mod n
  have hcnt : (paddedCount n / 2 + 1) / 2 = paddedCount n / 4 := by omega
  refine ⟨hpad, ?_, ?_, ?_, ?_, ?_⟩
  · simp only [imposePages, imposeEmit_length, List.length_range', hcnt]
  · simp only [imposePages, hcnt, imposeEmit_front,
      List.getElem?_range' 0 2 hk, Option.map_some']
    have : (0 + 2 * k) / 2 = k := by omega
    rw [this]
    rfl
  · simp only [imposePages, hcnt, imposeEmit_back,
      List.getElem?_range' 0 2 hk, Option.map_some']
    have : (0 + 2 * k) / 2 = k := by omega
    rw [this]
    rfl
  · intro idx h
    simp [slot]
    omega
  · intro idx h
    simp [slot, h]

/-- C1 witness: for a 10-page input (padded to 12, 3 sheets), sheet 0's
front carries (blank page 11, real page 0) and its back carries
(real page 1, blank page 10), as in spec section 8. -/
theorem impose_booklet_layout_witness :
    0 < paddedCount 10 / 4 ∧
    (imposePages 10)[0]? = some ⟨none, some 0⟩ ∧
    (imposePages 10)[1]? = some ⟨some 1, none⟩ := by
  have h := impose_booklet_layout 10 0 (by decide)
  refine ⟨by decide, ?_, ?_⟩
  · have h1 := h.2.2.1
    norm_num [paddedCount, slot] at h1 ⊢
    exact h1
  · have h1 := h.2.2.2.1
    norm_num [paddedCount, slot] at h1 ⊢
    exact h1

/- ────────────────────────────────────────────────────────────────────
   C4
   ──────────────────────────────────────────────────────────────────── -/

/-- C4: for a baseline page count `p` that is not a multiple of 4,
`_best_direction` — which `_auto_adjust_bulletin` evaluates exactly once,
before the search loops — returns "tighten" exactly when
`pagesOver = p % 4` is at most `blanksNeeded = _booklet_blanks p`
(so ties resolve to tighten), and "loosen" exactly otherwise. -/
theorem best_direction_spec (p : Nat) (hp : p % 4 ≠ 0) :
    (bestDirection p = "tighten" ↔ p % 4 ≤ bookletBlanks p) ∧
    (bestDirection p = "loosen" ↔ bookletBlanks p < p % 4) := by
  have hb0 : ¬ (bookletBlanks p = 0) := by unfold bookletBlanks; omega
  have hd : bestDirection p =
      if bookletBlanks p < p % 4 then "loosen" else "tighten" := by
    unfold bestDirection
    simp [hb0]
  by_cases hc : bookletBlanks p < p % 4
  · rw [hd, if_pos hc]
    exact ⟨⟨fun h => absurd h (by decide), fun h => absurd hc (Nat.not_lt.mpr h)⟩,
      ⟨fun _ => hc, fun _ => rfl⟩⟩
  · rw [hd, if_neg hc]
    exact ⟨⟨fun _ => Nat.not_lt.mp hc, fun _ => rfl⟩,
      ⟨fun h => absurd h (by decide), fun h => absurd h hc⟩⟩

/-- C4 witness: a 14-page baseline is a tie (`pagesOver = blanksNeeded = 2`)
and resolves to "tighten". -/
theorem best_direction_spec_witness :
    14 % 4 ≠ 0 ∧ 14 % 4 = bookletBlanks 14 ∧ bestDirection 14 = "tighten" :=
  ⟨by decide, by decide, (best_direction_spec 14 (by decide)).1.mpr (by decide)⟩

/- ────────────────────────────────────────────────────────────────────
   C9
   ──────────────────────────────────────────────────────────────────── -/

/-- C9: when the baseline page count is unmeasurable or already a multiple
of 4, `_auto_adjust_bulletin` performs exactly one render (the baseline,
which is therefore the file left on disk), attempts no density profile,
never creates the search state, and the blank padding needed by the
measured count is zero. -/
theorem auto_fit_baseline_perfect (measure : String → Rat → Option Nat)
    (html : String)
    (h : measure html 1 = none ∨ ∃ m, measure html 1 = some m ∧ m % 4 = 0) :
    autoAdjustBulletin measure html = ⟨[(html, 1)], [], none⟩ ∧
    (∀ m, measure html 1 = some m → bookletBlanks m = 0) := by
  rcases h with h | ⟨m, hm, hmod⟩
  · constructor
    · simp [autoAdjustBulletin, h]
    · intro m hm
      rw [h] at hm
      cases hm
  · constructor
    · simp [autoAdjustBulletin, hm, hmod]
    · intro m' hm'
      rw [hm] at hm'
      injection hm' with h'
      subst h'
      unfold bookletBlanks
      omega

/-- C9 witness: a baseline measuring 12 pages ends the run at once with
only the baseline render and zero blanks. -/
theorem auto_fit_baseline_perfect_witness :
    autoAdjustBulletin (fun _ _ => some 12) "x" = ⟨[("x", 1)], [], none⟩ ∧
    bookletBlanks 12 = 0 := by
  have h := auto_fit_baseline_perfect (fun _ _ => some 12) "x"
    (Or.inr ⟨12, rfl, by decide⟩)
  exact ⟨h.1, h.2 12 rfl⟩

/- ────────────────────────────────────────────────────────────────────
   C5
   ──────────────────────────────────────────────────────────────────── -/

theorem shrinkGo_spec (measure : Rat → Option Nat) (maxPages : Nat)
    (l : List Rat) (last : Rat) :
    shrinkGo measure maxPages last l =
      match l.find? (shrinkHit measure maxPages) with
      | some s =>
          (l.takeWhile (fun t => !(shrinkHit measure maxPages t)) ++ [s], s)
      | none => (l, l.getLastD last) := by
  induction l generalizing last with
  | nil => rfl
  | cons s rest ih =>
      by_cases hs : shrinkHit measure maxPages s
      · simp [shrinkGo, hs, List.find?_cons_of_pos, List.takeWhile_cons]
      · have hfalse : shrinkHit measure maxPages s = false := by
          simpa using hs
        rw [List.find?_cons_of_neg _ hs]
        simp only [shrinkGo, hfalse, Bool.false_eq_true, if_false, ih s]
        cases hfind : rest.find? (shrinkHit measure maxPages) with
        | none =>
            simp only [List.takeWhile_cons, hfalse]
            rw [List.getLastD_cons]
        | some s' =>
            simp [List.takeWhile_cons, hfalse]

/-- C5: `render_with_shrink` renders at scale 1.0 first and returns that
render when its page count is `≤ max_pages` or unmeasurable; otherwise it
re-renders along the fixed ladder 0.95, 0.90, 0.85, 0.80 in order, stopping
at the first scale whose measured count is `≤ max_pages`, and when no scale
on the ladder satisfies the ceiling the file returned is the last
(0.80-scale) attempt. -/
theorem render_with_shrink_ladder (measure : Rat → Option Nat)
    (maxPages : Nat) :
    ((measure 1 = none ∨ ∃ m, measure 1 = some m ∧ m ≤ maxPages) →
      renderWithShrink measure maxPages = ([1], 1)) ∧
    ((∃ m, measure 1 = some m ∧ maxPages < m) →
      renderWithShrink measure maxPages =
        match AUTO_SHRINK_SCALES.find? (shrinkHit measure maxPages) with
        | some s =>
            (1 :: (AUTO_SHRINK_SCALES.takeWhile
              (fun t => !(shrinkHit measure maxPages t)) ++ [s]), s)
        | none => (1 :: AUTO_SHRINK_SCALES, 80/100)) := by
  constructor
  · rintro (h | ⟨m, hm, hle⟩)
    · simp [renderWithShrink, h]
    · simp [renderWithShrink, hm, hle]
  · rintro ⟨m, hm, hgt⟩
    have hnot : ¬ m ≤ maxPages := by omega
    simp only [renderWithShrink, hm, hnot, if_false]
    rw [shrinkGo_spec]
    cases hfind : AUTO_SHRINK_SCALES.find? (shrinkHit measure maxPages) with
    | none => simp [hfind]; rfl
    | some s => simp [hfind]

/-- C5 witness: with a 3-page document and `max_pages = 2`, the ladder is
tried in order and stops at 0.85, the first scale measuring `≤ 2` pages. -/
theorem render_with_shrink_ladder_witness :
    shrinkMeasureExample 1 = some 3 ∧
    renderWithShrink shrinkMeasureExample 2 =
      ([1, 95/100, 90/100, 85/100], 85/100) := by
  have h0 : shrinkMeasureExample 1 = some 3 := by norm_num [shrinkMeasureExample]
  have h := (render_with_shrink_ladder shrinkMeasureExample 2).2
    ⟨3, h0, by omega⟩
  rw [h]
  have h95 : shrinkHit shrinkMeasureExample 2 (95/100) = false := by
    norm_num [shrinkHit, shrinkMeasureExample]
  have h90 : shrinkHit shrinkMeasureExample 2 (90/100) = false := by
    norm_num [shrinkHit, shrinkMeasureExample]
  have h85 : shrinkHit shrinkMeasureExample 2 (85/100) = true := by
    norm_num [shrinkHit, shrinkMeasureExample]
  refine ⟨h0, ?_⟩
  simp [AUTO_SHRINK_SCALES, h95, h90, h85, List.find?_cons, List.takeWhile_cons]

/- ────────────────────────────────────────────────────────────────────
   C6
   ──────────────────────────────────────────────────────────────────── -/

/-- C6 counterexample: a read failure whose exception type is outside the
caught tuple `(ImportError, OSError, ValueError)` — e.g. pypdf's
`PdfReadError` on a corrupt file, a direct `Exception` subclass — is not
converted to the `None` sentinel by `count_pages`: it propagates and aborts
the caller. -/
theorem count_pages_uncaught :
    count_pages (.raise .otherError) = .error .otherError ∧
    count_pages (.raise .otherError) ≠ .ok none := by
  refine ⟨rfl, ?_⟩
  intro h
  cases h

/-- C6 amended: `count_pages` returns the physical page count on a
successful read, converts failures raised as `ImportError`, `OSError` or
`ValueError` to the `None` sentinel, and lets a failure of any other
exception type propagate to the caller. -/
theorem count_pages_amended :
    (∀ n, count_pages (.ok n) = .ok (some n)) ∧
    count_pages (.raise .importError) = .ok none ∧
    count_pages (.raise .osError) = .ok none ∧
    count_pages (.raise .valueError) = .ok none ∧
    count_pages (.raise .otherError) = .error .otherError :=
  ⟨fun _ => rfl, rfl, rfl, rfl, rfl⟩

/- ────────────────────────────────────────────────────────────────────
   C3
   ──────────────────────────────────────────────────────────────────── -/

/-- C3: in the primary-direction loop, once a tier's measured page count
crosses past the target boundary without landing on a multiple of 4 —
below `base - base % 4` while tightening (where `base` is the original
baseline count), above `base + _booklet_blanks base` while loosening — the
loop returns right after that tier: no later tier of that direction is
attempted (the attempt and render lists end with this profile). -/
theorem overshoot_halts (measure : String → Rat → Option Nat)
    (html direction : String) (base : Nat) (p : AdjustProfile)
    (rest : List AdjustProfile) (st : FitState) (m : Nat)
    (hm : measure (injectCss html p.css) p.scale = some m)
    (hm0 : m ≠ 0)
    (hcross : (direction = "tighten" ∧ m % 4 ≠ 0 ∧ m < base - base % 4) ∨
      (direction = "loosen" ∧ m % 4 ≠ 0 ∧ base + bookletBlanks base < m)) :
    adjustLoop measure html direction base true (p :: rest) st =
      (stepBest (injectCss html p.css) p.scale (bookletBlanks m) st,
       [p.name], [(injectCss html p.css, p.scale)]) := by
  have hover : overshootHit direction base m = true := by
    rcases hcross with ⟨hd, hmod, hlt⟩ | ⟨hd, hmod, hgt⟩
    · subst hd
      unfold overshootHit
      rw [if_pos ⟨rfl, by omega, hmod⟩]
      exact decide_eq_true hlt
    · subst hd
      unfold overshootHit
      rw [if_neg (by simp), if_pos ⟨rfl, by omega, hmod⟩]
      exact decide_eq_true hgt
  simp only [adjustLoop, hm, hm0, if_false]
  by_cases h0 :
      (stepBest (injectCss html p.css) p.scale (bookletBlanks m) st).bestBlanks
        = 0
  · simp [h0]
  · simp [h0, hover]

/-- C3 witness: with a 13-page baseline (state after an unproductive T1:
best blanks 3), the tier whose render measures 10 pages — past the lower
multiple 12 without landing on a multiple — is the last tier of the
tighten ladder attempted: "T3" is never tried. -/
theorem overshoot_halts_witness :
    10 % 4 ≠ 0 ∧ 10 < 13 - 13 % 4 ∧
    (adjustLoop overshootMeasure "<style></style>" "tighten" 13 true
      (BULLETIN_TIGHTEN_PROFILES.drop 1) ⟨"<style></style>", 1, 3, false⟩).2.1
      = ["T2"] ∧
    ¬ "T3" ∈
      (adjustLoop overshootMeasure "<style></style>" "tighten" 13 true
        (BULLETIN_TIGHTEN_PROFILES.drop 1)
        ⟨"<style></style>", 1, 3, false⟩).2.1 := by
  have hd : BULLETIN_TIGHTEN_PROFILES.drop 1 =
      BULLETIN_TIGHTEN_PROFILES.tail := List.drop_one _
  refine ⟨by decide, by decide, ?_, ?_⟩ <;>
    rw [hd,
      show BULLETIN_TIGHTEN_PROFILES.tail =
        BULLETIN_TIGHTEN_PROFILES.tail.headI :: BULLETIN_TIGHTEN_PROFILES.tail.tail
        from rfl,
      overshoot_halts overshootMeasure "<style></style>" "tighten" 13 _ _ _ 10
        rfl (by decide) (Or.inl ⟨rfl, by decide, by decide⟩)]
  · rfl
  · decide

/- ────────────────────────────────────────────────────────────────────
   C7
   ──────────────────────────────────────────────────────────────────── -/

theorem adjustLoop_allNone (measure : String → Rat → Option Nat)
    (html direction : String) (base : Nat) (ov : Bool)
    (hnone : ∀ css sc, measure (injectCss html css) sc = none) :
    ∀ (l : List AdjustProfile) (st : FitState),
      adjustLoop measure html direction base ov l st =
        (st, l.map (fun p => p.name),
         l.map (fun p => (injectCss html p.css, p.scale))) := by
  intro l
  induction l with
  | nil => intro st; rfl
  | cons p rest ih =>
      intro st
      simp only [adjustLoop, hnone p.css p.scale, ih st, List.map_cons]

/-- C7: an unmeasurable page count at an attempt skips the best-result
bookkeeping for that attempt (the state passes through unchanged) and the
loop continues with the next profile; in particular when every attempt of a
run is unmeasurable the controller terminates normally after trying all 12
profiles, with the baseline markup as best document and the baseline's own
blank count as best blank count, and performs no extra finalize render
(13 renders total: baseline plus 12 attempts). -/
theorem unmeasurable_never_aborts (measure : String → Rat → Option Nat)
    (html : String) :
    (∀ direction base ov p rest st,
      measure (injectCss html p.css) p.scale = none →
      adjustLoop measure html direction base ov (p :: rest) st =
        ((adjustLoop measure html direction base ov rest st).1,
         p.name :: (adjustLoop measure html direction base ov rest st).2.1,
         (injectCss html p.css, p.scale) ::
           (adjustLoop measure html direction base ov rest st).2.2)) ∧
    (∀ P, measure html 1 = some P → P % 4 ≠ 0 →
      (∀ css sc, measure (injectCss html css) sc = none) →
      (autoAdjustBulletin measure html).search =
        some ⟨html, 1, bookletBlanks P, false⟩ ∧
      (autoAdjustBulletin measure html).attempts.length = 12 ∧
      (autoAdjustBulletin measure html).renders.length = 13) := by
  constructor
  · intro direction base ov p rest st h
    simp only [adjustLoop, h]
  · intro P hm hmod hnone
    have hne : ¬ (P = 0 ∨ P % 4 = 0) := by omega
    have hblanks : bookletBlanks P > 0 := by
      unfold bookletBlanks
      omega
    have hTlen : BULLETIN_TIGHTEN_PROFILES.length = 6 := rfl
    have hLlen : BULLETIN_LOOSEN_PROFILES.length = 6 := rfl
    by_cases hdir : bestDirection P = "tighten" <;>
      simp only [autoAdjustBulletin, hm, hne, if_false, hdir, if_true,
        reduceIte,
        adjustLoop_allNone measure html _ _ _ hnone, hblanks, gt_iff_lt,
        if_pos] <;>
      simp [hblanks, List.length_append, hTlen, hLlen]

theorem inject_markedHtml (css : String) :
    (injectCss markedHtml css).data =
      "<style>".data ++ ("\n/* auto-adjust */\n".data ++ css.data ++
        "\n</style>".data) := by
  simp +decide [injectCss, markedHtml, styleMarker, replaceFrom]

theorem inject_markedHtml_ne (css : String) :
    injectCss markedHtml css ≠ markedHtml := by
  intro h
  have hlen := congrArg (fun s => s.data.length) h
  simp only [inject_markedHtml] at hlen
  simp [markedHtml] at hlen

theorem overshootHit_13_13 (direction : String) :
    overshootHit direction 13 13 = false := by
  unfold overshootHit
  rw [if_neg (by simp), if_neg (by simp)]

theorem adjustLoop_const13 (measure : String → Rat → Option Nat)
    (hconst : ∀ c s, measure c s = some 13)
    (html direction : String) (ov : Bool) :
    ∀ (l : List AdjustProfile) (st : FitState), st.bestBlanks = 3 →
      adjustLoop measure html direction 13 ov l st =
        (st, l.map (fun p => p.name),
         l.map (fun p => (injectCss html p.css, p.scale))) := by
  intro l
  induction l with
  | nil => intro st _; rfl
  | cons p rest ih =>
      intro st hst
      have hb : bookletBlanks 13 = 3 := rfl
      simp only [adjustLoop, hconst]
      simp [stepBest, hb, hst, overshootHit_13_13, ih]

/- ────────────────────────────────────────────────────────────────────
   C2
   ──────────────────────────────────────────────────────────────────── -/

/-- C2: evaluation at the failing input.  With a 13-page baseline where no
profile changes the measured count, `_auto_adjust_bulletin` ends with
`adjusted = false`, the best bookkeeping pointing at the baseline
(3 blanks), and performs no finalize render (13 renders: baseline plus 12
attempts) — but the file left on disk is the *last attempted candidate's*
render, whose markup differs from the baseline markup, contradicting the
claim (and the function's own docstring) that the baseline render is
sitting on disk as the final answer. -/
theorem finalize_skips_baseline_rerender :
    (autoAdjustBulletin staleMeasure markedHtml).search =
      some ⟨markedHtml, 1, 3, false⟩ ∧
    (autoAdjustBulletin staleMeasure markedHtml).attempts.length = 12 ∧
    (autoAdjustBulletin staleMeasure markedHtml).renders.length = 13 ∧
    ((autoAdjustBulletin staleMeasure markedHtml).renders.getLast?).map
      Prod.fst ≠ some markedHtml := by
  have hconst : ∀ c s, staleMeasure c s = some 13 := fun _ _ => rfl
  have hdir : bestDirection 13 = "tighten" := by decide
  have hb : bookletBlanks 13 = 3 := rfl
  simp only [autoAdjustBulletin, hconst, hb, hdir, reduceIte,
    adjustLoop_const13 staleMeasure hconst markedHtml "tighten" true
      BULLETIN_TIGHTEN_PROFILES ⟨markedHtml, 1, 3, false⟩ rfl,
    adjustLoop_const13 staleMeasure hconst markedHtml "tighten" false
      BULLETIN_LOOSEN_PROFILES ⟨markedHtml, 1, 3, false⟩ rfl]
  refine ⟨rfl, ?_, ?_, ?_⟩
  · simp [BULLETIN_TIGHTEN_PROFILES, BULLETIN_LOOSEN_PROFILES]
  · simp [BULLETIN_TIGHTEN_PROFILES, BULLETIN_LOOSEN_PROFILES]
  · simp only [BULLETIN_TIGHTEN_PROFILES, BULLETIN_LOOSEN_PROFILES,
      List.map_cons, List.map_nil, List.cons_append, List.nil_append,
      List.append_nil, List.getLast?_cons_cons, List.getLast?_singleton,
      Option.map_some']
    intro h
    exact inject_markedHtml_ne _ (by injection h)

/-- C7 witness: a run whose baseline measures 13 pages but in which every
profile attempt is unmeasurable terminates normally: all 12 profiles are
tried, no finalize render happens, and the result is the baseline markup
with the baseline's own 3 blanks. -/
theorem unmeasurable_never_aborts_witness :
    unmeasMeasure markedHtml 1 = some 13 ∧ (13:Nat) % 4 ≠ 0 ∧
    (autoAdjustBulletin unmeasMeasure markedHtml).search =
      some ⟨markedHtml, 1, 3, false⟩ ∧
    (autoAdjustBulletin unmeasMeasure markedHtml).attempts.length = 12 ∧
    (autoAdjustBulletin unmeasMeasure markedHtml).renders.length = 13 := by
  have hbase : unmeasMeasure markedHtml 1 = some 13 := by simp [unmeasMeasure]
  have hnone : ∀ css sc, unmeasMeasure (injectCss markedHtml css) sc = none := by
    intro css sc
    simp [unmeasMeasure, inject_markedHtml_ne css]
  have h := (unmeasurable_never_aborts unmeasMeasure markedHtml).2 13 hbase
    (by decide) hnone
  exact ⟨hbase, by decide, h.1, h.2.1, h.2.2⟩

/- ────────────────────────────────────────────────────────────────────
   C8
   ──────────────────────────────────────────────────────────────────── -/

/-- C8: along each six-tier ladder, every (selector, property) pair
adjusted by tier N-1 is also adjusted by tier N (tiers are cumulative, not
replacing), and a render-scale multiplier different from 1.0 appears only
at tiers 5 and 6 — slightly below 1.0 for tighten (0.97, 0.95), slightly
above 1.0 for loosen (1.03, 1.05) — while tiers 1 through 4 carry
scale 1.0. -/
theorem profiles_cumulative_and_scales :
    consecCumulative BULLETIN_TIGHTEN_PROFILES = true ∧
    consecCumulative BULLETIN_LOOSEN_PROFILES = true ∧
    BULLETIN_TIGHTEN_PROFILES.map (fun p => p.scale) =
      [1, 1, 1, 1, 97/100, 95/100] ∧
    BULLETIN_LOOSEN_PROFILES.map (fun p => p.scale) =
      [1, 1, 1, 1, 103/100, 105/100] ∧
    (97:Rat)/100 < 1 ∧ (95:Rat)/100 < 1 ∧
    (1:Rat) < 103/100 ∧ (1:Rat) < 105/100 :=
  ⟨by decide, by decide, rfl, rfl,
   by norm_num, by norm_num, by norm_num, by norm_num⟩

/- ────────────────────────────────────────────────────────────────────
   Supporting lemmas: string splicing
   ──────────────────────────────────────────────────────────────────── -/

theorem splitOnSub_ne_nil (needle l : List Char) :
    splitOnSub needle l ≠ [] := by
  cases l with
  | nil => simp [splitOnSub]
  | cons c rest =>
      rw [splitOnSub]
      split
      · simp
      · split <;> simp

theorem joinWith_splitOnSub (needle l : List Char) :
    joinWith needle (splitOnSub needle l) = l := by
  induction l using splitOnSub.induct needle with
  | case1 =>
      rw [splitOnSub]
      rfl
  | case2 c rest h ih =>
      rw [splitOnSub, if_pos h]
      obtain ⟨p, ps, hps⟩ : ∃ p ps,
          splitOnSub needle (rest.drop (needle.length - 1)) = p :: ps := by
        cases hx : splitOnSub needle (rest.drop (needle.length - 1)) with
        | nil => exact absurd hx (splitOnSub_ne_nil _ _)
        | cons p ps => exact ⟨p, ps, rfl⟩
      rw [hps]
      show [] ++ needle ++ joinWith needle (p :: ps) = c :: rest
      rw [← hps, ih, List.nil_append]
      rcases Bool.and_eq_true_iff.mp h with ⟨h1, h2⟩
      obtain ⟨t, ht⟩ := List.isPrefixOf_iff_prefix.mp h2
      obtain ⟨a, nrest, hn⟩ : ∃ a nrest, needle = a :: nrest := by
        cases needle with
        | nil => simp at h1
        | cons a nrest => exact ⟨a, nrest, rfl⟩
      have hdrop : rest.drop (needle.length - 1) = t := by
        have hdl : (c :: rest).drop needle.length = t := by
          rw [← ht, List.drop_left]
        rw [hn] at hdl ⊢
        simpa using hdl
      rw [hdrop, ht]
  | case3 c rest h hnil ih => exact absurd hnil (splitOnSub_ne_nil _ _)
  | case4 c rest h p ps hps ih =>
      rw [splitOnSub, if_neg h, hps]
      rw [hps] at ih
      cases ps with
      | nil =>
          show c :: p = c :: rest
          rw [show joinWith needle [p] = p from rfl] at ih
          rw [ih]
      | cons q ps2 =>
          show c :: p ++ needle ++ joinWith needle (q :: ps2) = c :: rest
          rw [← ih]
          simp [joinWith, List.append_assoc]

theorem replaceFrom_eq_joinWith (needle repl l : List Char) :
    replaceFrom needle repl l = joinWith repl (splitOnSub needle l) := by
  induction l using splitOnSub.induct needle with
  | case1 =>
      rw [splitOnSub, replaceFrom]
      rfl
  | case2 c rest h ih =>
      rw [splitOnSub, if_pos h, replaceFrom, if_pos h, ih]
      obtain ⟨p, ps, hps⟩ : ∃ p ps,
          splitOnSub needle (rest.drop (needle.length - 1)) = p :: ps := by
        cases hx : splitOnSub needle (rest.drop (needle.length - 1)) with
        | nil => exact absurd hx (splitOnSub_ne_nil _ _)
        | cons p ps => exact ⟨p, ps, rfl⟩
      rw [hps]
      rfl
  | case3 c rest h hnil ih => exact absurd hnil (splitOnSub_ne_nil _ _)
  | case4 c rest h p ps hps ih =>
      rw [splitOnSub, if_neg h, replaceFrom, if_neg h, hps]
      rw [hps] at ih
      cases ps with
      | nil =>
          rw [ih]
          rfl
      | cons q ps2 =>
          rw [ih]
          simp [joinWith, List.append_assoc]

theorem splitOnSub_of_not_contains (needle l : List Char)
    (h : containsSub needle l = false) :
    splitOnSub needle l = [l] := by
  induction l with
  | nil => rw [splitOnSub]
  | cons c rest ih =>
      rw [containsSub, Bool.or_eq_false_iff] at h
      rw [splitOnSub, if_neg (by simp [h.1]), ih h.2]

theorem injectCss_no_marker (html css : String)
    (h : containsSub styleMarker.data html.data = false) :
    injectCss html css = html := by
  unfold injectCss
  rw [replaceFrom_eq_joinWith, splitOnSub_of_not_contains _ _ h]
  rfl

theorem stepBest_bestHtml (html : String) (cand : String) (sc : Rat)
    (bl : Nat) (st : FitState) (hc : cand = html) (hst : st.bestHtml = html) :
    (stepBest cand sc bl st).bestHtml = html := by
  unfold stepBest
  split
  · exact hc
  · exact hst

theorem adjustLoop_id_renders (measure : String → Rat → Option Nat)
    (html direction : String) (base : Nat) (ov : Bool)
    (hid : ∀ css, injectCss html css = html) :
    ∀ (l : List AdjustProfile) (st : FitState), st.bestHtml = html →
      (adjustLoop measure html direction base ov l st).1.bestHtml = html ∧
      ∀ r ∈ (adjustLoop measure html direction base ov l st).2.2,
        r.1 = html := by
  intro l
  induction l with
  | nil =>
      intro st hst
      exact ⟨hst, fun r hr => absurd hr (List.not_mem_nil r)⟩
  | cons p rest ih =>
      intro st hst
      have hcand : injectCss html p.css = html := hid p.css
      cases hm : measure (injectCss html p.css) p.scale with
      | none =>
          simp only [adjustLoop, hm]
          refine ⟨(ih st hst).1, fun r hr => ?_⟩
          rcases List.mem_cons.mp hr with h1 | h2
          · rw [h1]
            exact hcand
          · exact (ih st hst).2 r h2
      | some m =>
          by_cases hm0 : m = 0
          · subst hm0
            simp only [adjustLoop, hm, reduceIte]
            refine ⟨(ih st hst).1, fun r hr => ?_⟩
            rcases List.mem_cons.mp hr with h1 | h2
            · rw [h1]
              exact hcand
            · exact (ih st hst).2 r h2
          · have hstep := stepBest_bestHtml html (injectCss html p.css)
              p.scale (bookletBlanks m) st hcand hst
            simp only [adjustLoop, hm, if_neg hm0]
            by_cases hz :
                (stepBest (injectCss html p.css) p.scale (bookletBlanks m)
                  st).bestBlanks = 0
            · rw [if_pos hz]
              refine ⟨hstep, fun r hr => ?_⟩
              rcases List.mem_cons.mp hr with h1 | h2
              · rw [h1]
                exact hcand
              · exact absurd h2 (List.not_mem_nil r)
            · rw [if_neg hz]
              by_cases hov : (ov && overshootHit direction base m) = true
              · rw [if_pos hov]
                refine ⟨hstep, fun r hr => ?_⟩
                rcases List.mem_cons.mp hr with h1 | h2
                · rw [h1]
                  exact hcand
                · exact absurd h2 (List.not_mem_nil r)
              · rw [if_neg hov]
                refine ⟨(ih _ hstep).1, fun r hr => ?_⟩
                rcases List.mem_cons.mp hr with h1 | h2
                · rw [h1]
                  exact hcand
                · exact (ih _ hstep).2 r h2

/- ────────────────────────────────────────────────────────────────────
   C10
   ──────────────────────────────────────────────────────────────────── -/

/-- C10: `_inject_css` returns the markup with
`"\n/* auto-adjust */\n" + css + "\n"` inserted immediately before every
occurrence of the marker `"</style>"`, preserving all original characters
in order (joining the inter-marker segments with the bare marker recovers
exactly the input); when the markup contains no `"</style>"` marker the
result equals the input unchanged, so every profile attempt of an auto-fit
run on such markup renders the baseline markup itself. -/
theorem inject_css_spec (html css : String) :
    (injectCss html css).data =
      joinWith (("\n/* auto-adjust */\n".data ++ css.data ++ "\n".data) ++
          styleMarker.data)
        (splitOnSub styleMarker.data html.data) ∧
    joinWith styleMarker.data (splitOnSub styleMarker.data html.data) =
      html.data ∧
    (containsSub styleMarker.data html.data = false →
      injectCss html css = html ∧
      ∀ (measure : String → Rat → Option Nat) r,
        r ∈ (autoAdjustBulletin measure html).renders → r.1 = html) := by
  refine ⟨?_, joinWith_splitOnSub _ _, fun hnc => ?_⟩
  · show replaceFrom styleMarker.data
      ("\n/* auto-adjust */\n".data ++ css.data ++ "\n</style>".data)
      html.data = _
    rw [replaceFrom_eq_joinWith]
    have hsplit : ("\n</style>".data : List Char) =
        "\n".data ++ styleMarker.data := rfl
    rw [hsplit]
    simp [List.append_assoc]
  · have hid : ∀ c, injectCss html c = html := fun c =>
      injectCss_no_marker html c hnc
    refine ⟨hid css, ?_⟩
    intro measure r hr
    cases hb : measure html 1 with
    | none =>
        simp only [autoAdjustBulletin, hb] at hr
        simp at hr
        rw [hr]
    | some pages =>
        by_cases hp : pages = 0 ∨ pages % 4 = 0
        · simp only [autoAdjustBulletin, hb, if_pos hp] at hr
          simp at hr
          rw [hr]
        · simp only [autoAdjustBulletin, hb, if_neg hp] at hr
          set d := bestDirection pages with hd
          set P := if d = "tighten" then BULLETIN_TIGHTEN_PROFILES
            else BULLETIN_LOOSEN_PROFILES with hP
          set S := if d = "tighten" then BULLETIN_LOOSEN_PROFILES
            else BULLETIN_TIGHTEN_PROFILES with hS
          set st0 : FitState := ⟨html, 1, bookletBlanks pages, false⟩
            with hst0
          set r1 := adjustLoop measure html d pages true P st0 with hr1
          have h1 := adjustLoop_id_renders measure html d pages true hid
            P st0 (by rw [hst0])
          rw [← hr1] at h1
          by_cases hsec : r1.1.bestBlanks > 0
          · rw [if_pos hsec] at hr
            have h2 := adjustLoop_id_renders measure html d pages false hid
              S r1.1 h1.1
            rcases List.mem_cons.mp hr with h | h
            · rw [h]
            · rcases List.mem_append.mp h with h | h
              · rcases List.mem_append.mp h with h | h
                · exact h1.2 r h
                · exact h2.2 r h
              · by_cases hadj :
                    (adjustLoop measure html d pages false S
                      r1.1).1.adjusted = true
                · rw [if_pos hadj] at h
                  rcases List.mem_singleton.mp h with h3
                  rw [h3]
                  exact h2.1
                · rw [if_neg hadj] at h
                  exact absurd h (List.not_mem_nil r)
          · rw [if_neg hsec] at hr
            rcases List.mem_cons.mp hr with h | h
            · rw [h]
            · rcases List.mem_append.mp h with h | h
              · rcases List.mem_append.mp h with h | h
                · exact h1.2 r h
                · exact absurd h (List.not_mem_nil r)
              · by_cases hadj : (r1.1, ([] : List String),
                    ([] : List (String × Rat))).1.adjusted = true
                · rw [if_pos hadj] at h
                  rcases List.mem_singleton.mp h with h3
                  rw [h3]
                  exact h1.1
                · rw [if_neg hadj] at h
                  exact absurd h (List.not_mem_nil r)

/-- C10 witness: a markup with no style block passes through `_inject_css`
unchanged, and every render of an auto-fit run on it uses the baseline
markup. -/
theorem inject_css_spec_witness :
    containsSub styleMarker.data "<p>x</p>".data = false ∧
    injectCss "<p>x</p>" "Y" = "<p>x</p>" ∧
    ∀ r, r ∈ (autoAdjustBulletin staleMeasure "<p>x</p>").renders →
      r.1 = "<p>x</p>" := by
  have hc : containsSub styleMarker.data "<p>x</p>".data = false := by decide
  have h := (inject_css_spec "<p>x</p>" "Y").2.2 hc
  exact ⟨hc, h.1, fun r hr => h.2 staleMeasure r hr⟩

end BulletinMaker
